import Mathlib

/-!
# Shallow embedding of the `proyecto-final` library-catalog service

Embeds the TypeScript sources `Libro.ts`, `Usuario.ts`, `Prestamo.ts` and
`Biblioteca.ts`.  JavaScript `Map<number, T>` objects are modelled as
insertion-ordered association lists (`Map.set` replaces in place when the key
is present, appends otherwise; `Map.values()` iterates in insertion order).
Mutation of the entity objects held in the maps is modelled by explicit state
passing: each entity method returns the updated entity together with its
JavaScript return value.  The storage port (`IStorage`) is modelled as a field
holding the last snapshot passed to `storage.save`, since `Biblioteca` only
ever saves full snapshots and loads once at construction.  `Date.toISOString`
is modelled as an arbitrary nonempty string supplied by the caller (the real
function always returns a nonempty ISO-8601 string); JavaScript truthiness of
the optional `fechaDevolucion` string (`!this.fechaDevolucion`) is modelled
faithfully, so the empty string counts as falsy.
-/

/-- JavaScript truthiness of an optional string: `undefined` and `""` are
falsy, every other string is truthy. -/
def jsTruthy : Option String → Bool
  | none => false
  | some s => !s.isEmpty

/-! ## `Libro.ts` -/

/-- A book (`class Libro`): id, title, author, year and the private
`disponible` flag. -/
structure Libro where
  id : Nat
  titulo : String
  autor : String
  anio : Nat
  disponible : Bool
deriving Repr, DecidableEq

/-- `new Libro(id, titulo, autor, anio)`: every new book starts available. -/
def Libro.nuevo (id : Nat) (titulo autor : String) (anio : Nat) : Libro :=
  { id := id, titulo := titulo, autor := autor, anio := anio, disponible := true }

/-- `Libro.isDisponible()`. -/
def Libro.isDisponible (l : Libro) : Bool :=
  l.disponible

/-- `Libro.prestar()`: if not available, return `false` without mutation;
otherwise clear `disponible` and return `true`.  The pair is
(updated object, JS return value). -/
def Libro.prestar (l : Libro) : Libro × Bool :=
  if !l.disponible then (l, false)
  else ({ l with disponible := false }, true)

/-- `Libro.devolver()`: if already available, return `false` without mutation;
otherwise set `disponible` and return `true`. -/
def Libro.devolver (l : Libro) : Libro × Bool :=
  if l.disponible then (l, false)
  else ({ l with disponible := true }, true)

/-- The serialized form of a book produced by `Libro.toJSON()`. -/
structure LibroJSON where
  id : Nat
  titulo : String
  autor : String
  anio : Nat
  disponible : Bool
deriving Repr, DecidableEq

/-- `Libro.toJSON()`. -/
def Libro.toJSON (l : Libro) : LibroJSON :=
  { id := l.id, titulo := l.titulo, autor := l.autor, anio := l.anio,
    disponible := l.disponible }

/-- `Libro.fromJSON(obj)`: build a fresh (available) book, then call
`prestar()` when the stored `disponible` flag is `false`. -/
def Libro.fromJSON (obj : LibroJSON) : Libro :=
  let libro := Libro.nuevo obj.id obj.titulo obj.autor obj.anio
  if !obj.disponible then (libro.prestar).1 else libro

/-! ## `Usuario.ts` -/

/-- A patron (`class Usuario`). -/
structure Usuario where
  id : Nat
  nombre : String
deriving Repr, DecidableEq

/-- The serialized form produced by `Usuario.toJSON()` (same fields). -/
structure UsuarioJSON where
  id : Nat
  nombre : String
deriving Repr, DecidableEq

/-- `Usuario.toJSON()`. -/
def Usuario.toJSON (u : Usuario) : UsuarioJSON :=
  { id := u.id, nombre := u.nombre }

/-- `Usuario.fromJSON(obj)`. -/
def Usuario.fromJSON (obj : UsuarioJSON) : Usuario :=
  { id := obj.id, nombre := obj.nombre }

/-! ## `Prestamo.ts` -/

/-- A loan (`class Prestamo`): `fechaDevolucion` is `none` while the optional
field is `undefined`. -/
structure Prestamo where
  id : Nat
  libroId : Nat
  usuarioId : Nat
  fechaPrestamo : String
  fechaDevolucion : Option String
deriving Repr, DecidableEq

/-- `Prestamo.isActivo()`: `return !this.fechaDevolucion` — JS truthiness, so
an (unreachable in normal operation) empty-string date also counts as active. -/
def Prestamo.isActivo (p : Prestamo) : Bool :=
  !jsTruthy p.fechaDevolucion

/-- `Prestamo.devolver(fecha)`: refuse (returning `false`) when no longer
active, otherwise record the return date and return `true`. -/
def Prestamo.devolver (p : Prestamo) (fecha : String) : Prestamo × Bool :=
  if !p.isActivo then (p, false)
  else ({ p with fechaDevolucion := some fecha }, true)

/-- The serialized form produced by `Prestamo.toJSON()` (same fields;
an `undefined` `fechaDevolucion` round-trips as absence through
`JSON.stringify`/`JSON.parse`). -/
structure PrestamoJSON where
  id : Nat
  libroId : Nat
  usuarioId : Nat
  fechaPrestamo : String
  fechaDevolucion : Option String
deriving Repr, DecidableEq

/-- `Prestamo.toJSON()`. -/
def Prestamo.toJSON (p : Prestamo) : PrestamoJSON :=
  { id := p.id, libroId := p.libroId, usuarioId := p.usuarioId,
    fechaPrestamo := p.fechaPrestamo, fechaDevolucion := p.fechaDevolucion }

/-- `Prestamo.fromJSON(obj)`. -/
def Prestamo.fromJSON (obj : PrestamoJSON) : Prestamo :=
  { id := obj.id, libroId := obj.libroId, usuarioId := obj.usuarioId,
    fechaPrestamo := obj.fechaPrestamo, fechaDevolucion := obj.fechaDevolucion }


/-! ## JavaScript `Map<number, T>` -/

/-- A JavaScript `Map<number, α>` as an insertion-ordered association list. -/
abbrev JsMap (α : Type) := List (Nat × α)

namespace JsMap

/-- `m.get(k)`: the value at the (unique) entry with key `k`, if any. -/
def get (m : JsMap α) (k : Nat) : Option α :=
  match m with
  | [] => none
  | e :: es => if e.1 == k then some e.2 else get es k

/-- `m.set(k, v)`: replace in place if the key is present (JS `Map` keeps the
original insertion position on overwrite), append otherwise. -/
def set (m : JsMap α) (k : Nat) (v : α) : JsMap α :=
  match m with
  | [] => [(k, v)]
  | e :: es => if e.1 == k then (k, v) :: es else e :: set es k v

/-- `Array.from(m.values())`. -/
def values (m : JsMap α) : List α :=
  m.map (·.2)

/-- `m.size`. -/
def size (m : JsMap α) : Nat :=
  m.length

end JsMap

/-! ## `Biblioteca.ts` -/

/-- The id-counter triple `nextIds`. -/
structure NextIds where
  libro : Nat
  usuario : Nat
  prestamo : Nat
deriving Repr, DecidableEq

/-- `interface DBShape`, as read back from the untyped storage: `load()` guards
with `if (data.nextIds)`, so a snapshot may lack the counters — modelled as
`Option` (the collections are plain lists, matching `Array.isArray`). -/
structure DBShape where
  libros : List LibroJSON
  usuarios : List UsuarioJSON
  prestamos : List PrestamoJSON
  nextIds : Option NextIds
deriving Repr, DecidableEq

/-- `class Biblioteca`: the three in-memory maps, the counters, and the
storage port modelled as the last snapshot handed to `storage.save`
(`none` when nothing was ever saved). -/
structure Biblioteca where
  libros : JsMap Libro
  usuarios : JsMap Usuario
  prestamos : JsMap Prestamo
  nextIds : NextIds
  storage : Option DBShape
deriving Repr, DecidableEq

namespace Biblioteca

/-- The snapshot built inside `Biblioteca.save()`: each map's values
serialized in insertion order, plus the counters. -/
def toDB (b : Biblioteca) : DBShape :=
  { libros := b.libros.values.map Libro.toJSON,
    usuarios := b.usuarios.values.map Usuario.toJSON,
    prestamos := b.prestamos.values.map Prestamo.toJSON,
    nextIds := some b.nextIds }

/-- `Biblioteca.save()`: hand the full snapshot to the storage port. -/
def save (b : Biblioteca) : Biblioteca :=
  { b with storage := some b.toDB }

/-- `Biblioteca.load()`: if the storage holds no data, return; otherwise
rebuild each map keyed by the raw JSON `id` in array order, and restore the
counters only when `data.nextIds` is present (truthy). -/
def load (b : Biblioteca) : Biblioteca :=
  match b.storage with
  | none => b
  | some data =>
    { b with
      libros := data.libros.foldl (fun m lb => m.set lb.id (Libro.fromJSON lb)) b.libros,
      usuarios := data.usuarios.foldl (fun m us => m.set us.id (Usuario.fromJSON us)) b.usuarios,
      prestamos := data.prestamos.foldl (fun m pr => m.set pr.id (Prestamo.fromJSON pr)) b.prestamos,
      nextIds := match data.nextIds with
                 | some n => n
                 | none => b.nextIds }

/-- `new Biblioteca(storage)`: fresh maps, counters at 1, then `this.load()`
from the adapter (whose `load()` yields `stored`). -/
def nueva (stored : Option DBShape) : Biblioteca :=
  Biblioteca.load
    { libros := [], usuarios := [], prestamos := [],
      nextIds := { libro := 1, usuario := 1, prestamo := 1 },
      storage := stored }

/-- `Biblioteca.crearLibro(titulo, autor, anio)`: allocate the next book id,
store a fresh available book, persist, return it. -/
def crearLibro (b : Biblioteca) (titulo autor : String) (anio : Nat) :
    Libro × Biblioteca :=
  let id := b.nextIds.libro
  let libro := Libro.nuevo id titulo autor anio
  let b := { b with nextIds := { b.nextIds with libro := id + 1 },
                    libros := b.libros.set id libro }
  (libro, b.save)

/-- `Biblioteca.listarLibros()`. -/
def listarLibros (b : Biblioteca) : List Libro :=
  b.libros.values

/-- `Biblioteca.crearUsuario(nombre)`. -/
def crearUsuario (b : Biblioteca) (nombre : String) : Usuario × Biblioteca :=
  let id := b.nextIds.usuario
  let usuario : Usuario := { id := id, nombre := nombre }
  let b := { b with nextIds := { b.nextIds with usuario := id + 1 },
                    usuarios := b.usuarios.set id usuario }
  (usuario, b.save)

/-- `Biblioteca.listarUsuarios()`. -/
def listarUsuarios (b : Biblioteca) : List Usuario :=
  b.usuarios.values

/-- The result record of `prestarLibro`: `{ ok, mensaje, prestamo? }`
(`prestamo` is absent — `none` — on failure). -/
structure PrestarResult where
  ok : Bool
  mensaje : String
  prestamo : Option Prestamo
deriving Repr, DecidableEq

/-- `Biblioteca.prestarLibro(libroId, usuarioId)`: look both entities up,
validate (book exists, patron exists, book available) in order, then allocate
a loan id, record `now` (`new Date().toISOString()`) as the loan date, mark
the book lent, store the loan, persist. -/
def prestarLibro (b : Biblioteca) (libroId usuarioId : Nat) (now : String) :
    PrestarResult × Biblioteca :=
  match b.libros.get libroId, b.usuarios.get usuarioId with
  | none, _ =>
    ({ ok := false, mensaje := "Libro no encontrado", prestamo := none }, b)
  | some _, none =>
    ({ ok := false, mensaje := "Usuario no encontrado", prestamo := none }, b)
  | some libro, some _ =>
    if !libro.isDisponible then
      ({ ok := false, mensaje := "Libro no disponible", prestamo := none }, b)
    else
      let id := b.nextIds.prestamo
      let prestamo : Prestamo :=
        { id := id, libroId := libroId, usuarioId := usuarioId,
          fechaPrestamo := now, fechaDevolucion := none }
      let b := { b with
                 nextIds := { b.nextIds with prestamo := id + 1 },
                 libros := b.libros.set libroId (libro.prestar).1,
                 prestamos := b.prestamos.set id prestamo }
      ({ ok := true, mensaje := "Préstamo registrado", prestamo := some prestamo },
       b.save)

/-- The result record of `devolverLibro`: `{ ok, mensaje }`. -/
structure DevolverResult where
  ok : Bool
  mensaje : String
deriving Repr, DecidableEq

/-- `Biblioteca.devolverLibro(prestamoId)`: validate (loan exists, loan still
active, referenced book exists) in order, then record `now` as the return
date, mark the book available, persist. -/
def devolverLibro (b : Biblioteca) (prestamoId : Nat) (now : String) :
    DevolverResult × Biblioteca :=
  match b.prestamos.get prestamoId with
  | none => ({ ok := false, mensaje := "Préstamo no encontrado" }, b)
  | some prestamo =>
    if !prestamo.isActivo then
      ({ ok := false, mensaje := "Ya devuelto" }, b)
    else
      match b.libros.get prestamo.libroId with
      | none => ({ ok := false, mensaje := "Libro inexistente" }, b)
      | some libro =>
        let b := { b with
                   prestamos := b.prestamos.set prestamoId (prestamo.devolver now).1,
                   libros := b.libros.set prestamo.libroId (libro.devolver).1 }
        ({ ok := true, mensaje := "Libro devuelto" }, b.save)

/-- `Biblioteca.listarPrestamos(activosOnly)`. -/
def listarPrestamos (b : Biblioteca) (activosOnly : Bool) : List Prestamo :=
  let arr := b.prestamos.values
  if activosOnly then arr.filter Prestamo.isActivo else arr

/-- The record returned by `estadisticas()`. -/
structure Estadisticas where
  totalLibros : Nat
  disponibles : Nat
  prestamosActivos : Nat
deriving Repr, DecidableEq

/-- `Biblioteca.estadisticas()`: all three counts recomputed from the current
maps. -/
def estadisticas (b : Biblioteca) : Estadisticas :=
  { totalLibros := b.libros.size,
    disponibles := (b.libros.values.filter Libro.isDisponible).length,
    prestamosActivos := (b.listarPrestamos true).length }

/-- The catalog states reachable from the empty catalog by the four mutating
operations.  The timestamps fed to `prestarLibro`/`devolverLibro` stand for
`new Date().toISOString()` outputs, which are never empty. -/
inductive Reachable : Biblioteca → Prop where
  | vacia : Reachable (Biblioteca.nueva none)
  | crearLibro {b : Biblioteca} (t a : String) (y : Nat) :
      Reachable b → Reachable (b.crearLibro t a y).2
  | crearUsuario {b : Biblioteca} (n : String) :
      Reachable b → Reachable (b.crearUsuario n).2
  | prestarLibro {b : Biblioteca} (li ui : Nat) (now : String) :
      Reachable b → now.isEmpty = false → Reachable (b.prestarLibro li ui now).2
  | devolverLibro {b : Biblioteca} (pid : Nat) (now : String) :
      Reachable b → now.isEmpty = false → Reachable (b.devolverLibro pid now).2

end Biblioteca

/-- Number of active loans whose `libroId` is `bid` (the measure behind the
no-double-lend invariant). -/
def countActive (pres : JsMap Prestamo) (bid : Nat) : Nat :=
  (pres.values.filter (fun p => p.isActivo && p.libroId == bid)).length

/-- Well-formed catalog map: every entry is keyed by its entity's id and keys
are pairwise distinct — exactly what `Biblioteca` maintains, since entries are
only ever inserted via `map.set(entity.id, entity)`. -/
def JsMap.WFkeys (m : JsMap α) (idOf : α → Nat) : Prop :=
  (∀ e ∈ m, e.1 = idOf e.2) ∧ (m.map (·.1)).Nodup

/-- The internal invariant of `Biblioteca` preserved by every operation:
well-formed keys, keys below the id counters, active loans referencing
existing books, and the availability/active-loan correspondence. -/
def Biblioteca.Inv (b : Biblioteca) : Prop :=
  b.libros.WFkeys Libro.id ∧
  (∀ e ∈ b.libros, e.1 < b.nextIds.libro) ∧
  b.prestamos.WFkeys Prestamo.id ∧
  (∀ e ∈ b.prestamos, e.1 < b.nextIds.prestamo) ∧
  (∀ p ∈ b.prestamos.values, p.isActivo = true → (b.libros.get p.libroId).isSome = true) ∧
  (∀ l ∈ b.libros.values,
    countActive b.prestamos l.id ≤ 1 ∧
    (l.disponible = false ↔ countActive b.prestamos l.id = 1))

/-! ## Lemmas about `JsMap` -/

namespace JsMap

theorem get_set_self (m : JsMap α) (k : Nat) (v : α) :
    (m.set k v).get k = some v := by
  induction m with
  | nil => simp [set, get]
  | cons e es ih =>
    by_cases h : e.1 = k
    · simp [set, get, h]
    · simp [set, get, h, ih]

theorem get_set_ne (m : JsMap α) {k k' : Nat} (v : α) (h : k' ≠ k) :
    (m.set k v).get k' = m.get k' := by
  induction m with
  | nil => simp [set, get, Ne.symm h]
  | cons e es ih =>
    by_cases he : e.1 = k
    · simp [set, get, he, Ne.symm h, h]
    · by_cases he' : e.1 = k'
      · simp [set, get, he, he', h]
      · simp [set, get, he, he', ih]

theorem get_eq_none_iff (m : JsMap α) (k : Nat) :
    m.get k = none ↔ ∀ e ∈ m, e.1 ≠ k := by
  induction m with
  | nil => simp [get]
  | cons e es ih =>
    by_cases h : e.1 = k
    · simp [get, h]
    · simp [get, h, ih]

theorem isSome_get_iff (m : JsMap α) (k : Nat) :
    (m.get k).isSome = true ↔ ∃ e ∈ m, e.1 = k := by
  induction m with
  | nil => simp [get]
  | cons e es ih =>
    by_cases h : e.1 = k
    · simp [get, h]
    · simp [get, h, ih]

theorem mem_of_get_eq_some {m : JsMap α} {k : Nat} {v : α}
    (h : m.get k = some v) : (k, v) ∈ m := by
  induction m with
  | nil => simp [get] at h
  | cons e es ih =>
    by_cases he : e.1 = k
    · simp [get, he] at h
      subst he h
      simp
    · simp [get, he] at h
      exact List.mem_cons_of_mem _ (ih h)

theorem set_eq_append_of_get_none {m : JsMap α} {k : Nat} (v : α)
    (h : m.get k = none) : m.set k v = m ++ [(k, v)] := by
  induction m with
  | nil => simp [set]
  | cons e es ih =>
    by_cases he : e.1 = k
    · simp [get, he] at h
    · simp [get, he] at h
      simp [set, he, ih h]

theorem keys_set_of_get_some {m : JsMap α} {k : Nat} {v w : α}
    (h : m.get k = some w) : (m.set k v).map (·.1) = m.map (·.1) := by
  induction m with
  | nil => simp [get] at h
  | cons e es ih =>
    by_cases he : e.1 = k
    · simp [set, he]
    · simp [get, he] at h
      simp [set, he, ih h]

theorem mem_set_iff {m : JsMap α} {k : Nat} {v w : α}
    (hnd : (m.map (·.1)).Nodup) (hget : m.get k = some w) (e : Nat × α) :
    e ∈ m.set k v ↔ (e = (k, v) ∨ (e ∈ m ∧ e.1 ≠ k)) := by
  induction m with
  | nil => simp [get] at hget
  | cons e₀ es ih =>
    simp only [List.map_cons, List.nodup_cons] at hnd
    by_cases he : e₀.1 = k
    · have hset : set (e₀ :: es) k v = (k, v) :: es := by simp [set, he]
      rw [hset]
      constructor
      · intro hmem
        rcases List.mem_cons.1 hmem with h1 | h1
        · exact Or.inl h1
        · have hne : e.1 ≠ k := by
            intro hk
            apply hnd.1
            rw [he, ← hk]
            exact List.mem_map_of_mem (fun x => x.1) h1
          exact Or.inr ⟨List.mem_cons_of_mem _ h1, hne⟩
      · intro hmem
        rcases hmem with h1 | ⟨h1, h2⟩
        · rw [h1]; exact List.mem_cons_self _ _
        · rcases List.mem_cons.1 h1 with h3 | h3
          · refine absurd ?_ h2
            rw [h3]; exact he
          · exact List.mem_cons_of_mem _ h3
    · have hset : set (e₀ :: es) k v = e₀ :: set es k v := by simp [set, he]
      have hget' : get es k = some w := by
        simp [get, he] at hget
        exact hget
      rw [hset]
      constructor
      · intro hmem
        rcases List.mem_cons.1 hmem with h1 | h1
        · refine Or.inr ⟨?_, ?_⟩
          · rw [h1]; exact List.mem_cons_self _ _
          · rw [h1]; exact he
        · rcases (ih hnd.2 hget').1 h1 with h2 | ⟨h2, h3⟩
          · exact Or.inl h2
          · exact Or.inr ⟨List.mem_cons_of_mem _ h2, h3⟩
      · intro hmem
        rcases hmem with h1 | ⟨h1, h2⟩
        · exact List.mem_cons_of_mem _ ((ih hnd.2 hget').2 (Or.inl h1))
        · rcases List.mem_cons.1 h1 with h3 | h3
          · rw [h3]; exact List.mem_cons_self _ _
          · exact List.mem_cons_of_mem _ ((ih hnd.2 hget').2 (Or.inr ⟨h3, h2⟩))

theorem length_set_of_get_some {m : JsMap α} {k : Nat} {v w : α}
    (h : m.get k = some w) : (m.set k v).length = m.length := by
  induction m with
  | nil => simp [get] at h
  | cons e es ih =>
    by_cases he : e.1 = k
    · simp [set, he]
    · simp [get, he] at h
      simp [set, he, ih h]

theorem filter_length_set {m : JsMap α} {k : Nat} {p q : α}
    (f : α → Bool) (hget : m.get k = some p) :
    ((m.set k q).values.filter f).length + (if f p then 1 else 0) =
      (m.values.filter f).length + (if f q then 1 else 0) := by
  induction m with
  | nil => simp [get] at hget
  | cons e es ih =>
    by_cases he : e.1 = k
    · simp only [get, he, beq_self_eq_true, if_true, Option.some.injEq] at hget
      subst hget
      simp only [set, he, beq_self_eq_true, if_true, values, List.map_cons,
        List.filter_cons]
      by_cases hq : f q <;> by_cases hp : f e.2 <;> simp [hq, hp]
    · simp [get, he] at hget
      have h2 := ih hget
      simp only [set, beq_iff_eq, he, if_false, values, List.map_cons,
        List.filter_cons]
      by_cases hcur : f e.2 <;> by_cases hp : f p <;> by_cases hq : f q <;>
        simp [values, hcur, hp, hq] at h2 ⊢ <;> omega

end JsMap

/-! ## Entity-level lemmas -/

theorem libro_fromJSON_toJSON (l : Libro) : Libro.fromJSON l.toJSON = l := by
  cases l with
  | mk id titulo autor anio disponible =>
    cases disponible <;> simp [Libro.toJSON, Libro.fromJSON, Libro.nuevo, Libro.prestar]

theorem usuario_fromJSON_toJSON (u : Usuario) : Usuario.fromJSON u.toJSON = u := by
  cases u
  simp [Usuario.toJSON, Usuario.fromJSON]

theorem prestamo_fromJSON_toJSON (p : Prestamo) : Prestamo.fromJSON p.toJSON = p := by
  cases p
  simp [Prestamo.toJSON, Prestamo.fromJSON]

/-! ## Claim theorems: loan state machine -/

/-- C6: on an active loan, calling `devolver` twice in a row yields
`(true, false)`: the first call records the (nonempty ISO) timestamp, the
second call neither mutates the loan nor changes `fechaDevolucion`. -/
theorem prestamo_devolver_twice (p : Prestamo) (t1 t2 : String)
    (hact : p.isActivo = true) (ht1 : t1.isEmpty = false) :
    ((p.devolver t1).2 = true) ∧
    (((p.devolver t1).1.devolver t2).2 = false) ∧
    (((p.devolver t1).1.devolver t2).1 = (p.devolver t1).1) ∧
    ((p.devolver t1).1.fechaDevolucion = some t1) := by
  rcases p with ⟨id, li, ui, fp, fd⟩
  rcases fd with _ | s
  · simp [Prestamo.devolver, Prestamo.isActivo, jsTruthy, ht1]
  · simp only [Prestamo.isActivo, jsTruthy, Bool.not_not] at hact
    simp [Prestamo.devolver, Prestamo.isActivo, jsTruthy, hact, ht1]

theorem prestamo_devolver_twice_witness :
    (((⟨7, 1, 2, "2024-01-01T10:00:00.000Z", none⟩ : Prestamo).devolver
        "2024-01-02T10:00:00.000Z").2 = true) ∧
    ((((⟨7, 1, 2, "2024-01-01T10:00:00.000Z", none⟩ : Prestamo).devolver
        "2024-01-02T10:00:00.000Z").1.devolver "2024-01-03T10:00:00.000Z").2 = false) ∧
    ((((⟨7, 1, 2, "2024-01-01T10:00:00.000Z", none⟩ : Prestamo).devolver
        "2024-01-02T10:00:00.000Z").1.devolver "2024-01-03T10:00:00.000Z").1 =
      ((⟨7, 1, 2, "2024-01-01T10:00:00.000Z", none⟩ : Prestamo).devolver
        "2024-01-02T10:00:00.000Z").1) ∧
    (((⟨7, 1, 2, "2024-01-01T10:00:00.000Z", none⟩ : Prestamo).devolver
        "2024-01-02T10:00:00.000Z").1.fechaDevolucion =
      some "2024-01-02T10:00:00.000Z") :=
  prestamo_devolver_twice _ _ "2024-01-03T10:00:00.000Z" (by decide) (by decide)

/-! ## Claim theorems: statistics -/

/-- C8: `estadisticas()` is recomputed from the in-memory maps on every call:
the available count never exceeds the book count, and the active-loan count
equals the length of `listarPrestamos(true)`. -/
theorem estadisticas_consistent (b : Biblioteca) :
    (b.estadisticas).disponibles ≤ (b.estadisticas).totalLibros ∧
    (b.estadisticas).prestamosActivos = (b.listarPrestamos true).length := by
  refine ⟨?_, rfl⟩
  simp only [Biblioteca.estadisticas, JsMap.size, JsMap.values]
  exact le_trans (List.length_filter_le _ _) (by simp)

/-! ## Claim theorems: `prestarLibro` error handling -/

/-- C2: `prestarLibro` validates unknown book, then unknown patron, then
unavailable book, in that order; the first failing check yields its message
with no loan in the result, and every failing outcome leaves the whole
state (maps, counters and storage) untouched. -/
theorem prestarLibro_error_order (b : Biblioteca) (li ui : Nat) (now : String) :
    (b.libros.get li = none →
      b.prestarLibro li ui now =
        ({ ok := false, mensaje := "Libro no encontrado", prestamo := none }, b)) ∧
    (∀ l : Libro, b.libros.get li = some l → b.usuarios.get ui = none →
      b.prestarLibro li ui now =
        ({ ok := false, mensaje := "Usuario no encontrado", prestamo := none }, b)) ∧
    (∀ (l : Libro) (u : Usuario), b.libros.get li = some l →
      b.usuarios.get ui = some u → l.isDisponible = false →
      b.prestarLibro li ui now =
        ({ ok := false, mensaje := "Libro no disponible", prestamo := none }, b)) ∧
    ((b.prestarLibro li ui now).1.ok = false → (b.prestarLibro li ui now).2 = b) := by
  refine ⟨?_, ?_, ?_, ?_⟩
  · intro h
    simp [Biblioteca.prestarLibro, h]
  · intro l hl hu
    simp [Biblioteca.prestarLibro, hl, hu]
  · intro l u hl hu hd
    simp [Biblioteca.prestarLibro, hl, hu, hd]
  · intro hok
    rcases hli : b.libros.get li with _ | l
    · simp [Biblioteca.prestarLibro, hli]
    · rcases hui : b.usuarios.get ui with _ | u
      · simp [Biblioteca.prestarLibro, hli, hui]
      · by_cases hd : l.isDisponible
        · exact absurd hok (by simp [Biblioteca.prestarLibro, hli, hui, hd])
        · simp only [Bool.not_eq_true] at hd
          simp [Biblioteca.prestarLibro, hli, hui, hd]

theorem prestarLibro_error_order_witness :
    ((⟨[], [], [], ⟨1, 1, 1⟩, none⟩ : Biblioteca).prestarLibro 1 1 "T" =
      ({ ok := false, mensaje := "Libro no encontrado", prestamo := none },
        (⟨[], [], [], ⟨1, 1, 1⟩, none⟩ : Biblioteca))) ∧
    ((⟨[(1, ⟨1, "B", "A", 2000, true⟩)], [], [], ⟨2, 1, 1⟩, none⟩ :
        Biblioteca).prestarLibro 1 1 "T" =
      ({ ok := false, mensaje := "Usuario no encontrado", prestamo := none },
        (⟨[(1, ⟨1, "B", "A", 2000, true⟩)], [], [], ⟨2, 1, 1⟩, none⟩ :
          Biblioteca))) ∧
    ((⟨[(1, ⟨1, "B", "A", 2000, false⟩)], [(1, ⟨1, "P"⟩)], [], ⟨2, 2, 1⟩, none⟩ :
        Biblioteca).prestarLibro 1 1 "T" =
      ({ ok := false, mensaje := "Libro no disponible", prestamo := none },
        (⟨[(1, ⟨1, "B", "A", 2000, false⟩)], [(1, ⟨1, "P"⟩)], [], ⟨2, 2, 1⟩, none⟩ :
          Biblioteca))) :=
  ⟨(prestarLibro_error_order _ 1 1 "T").1 (by decide),
   (prestarLibro_error_order _ 1 1 "T").2.1 ⟨1, "B", "A", 2000, true⟩
     (by decide) (by decide),
   (prestarLibro_error_order _ 1 1 "T").2.2.1 ⟨1, "B", "A", 2000, false⟩ ⟨1, "P"⟩
     (by decide) (by decide) (by decide)⟩

/-! ## Claim theorems: `devolverLibro` error handling -/

/-- C3: `devolverLibro` validates unknown loan, then already-returned loan,
then missing referenced book, in that order; each failure yields its message
and every failing outcome leaves the whole state untouched. -/
theorem devolverLibro_error_order (b : Biblioteca) (pid : Nat) (now : String) :
    (b.prestamos.get pid = none →
      b.devolverLibro pid now =
        ({ ok := false, mensaje := "Préstamo no encontrado" }, b)) ∧
    (∀ p : Prestamo, b.prestamos.get pid = some p → p.isActivo = false →
      b.devolverLibro pid now = ({ ok := false, mensaje := "Ya devuelto" }, b)) ∧
    (∀ p : Prestamo, b.prestamos.get pid = some p → p.isActivo = true →
      b.libros.get p.libroId = none →
      b.devolverLibro pid now =
        ({ ok := false, mensaje := "Libro inexistente" }, b)) ∧
    ((b.devolverLibro pid now).1.ok = false → (b.devolverLibro pid now).2 = b) := by
  refine ⟨?_, ?_, ?_, ?_⟩
  · intro h
    simp [Biblioteca.devolverLibro, h]
  · intro p hp hact
    simp [Biblioteca.devolverLibro, hp, hact]
  · intro p hp hact hl
    simp [Biblioteca.devolverLibro, hp, hact, hl]
  · intro hok
    rcases hp : b.prestamos.get pid with _ | p
    · simp [Biblioteca.devolverLibro, hp]
    · by_cases hact : p.isActivo
      · rcases hl : b.libros.get p.libroId with _ | l
        · simp [Biblioteca.devolverLibro, hp, hact, hl]
        · exact absurd hok (by simp [Biblioteca.devolverLibro, hp, hact, hl])
      · simp only [Bool.not_eq_true] at hact
        simp [Biblioteca.devolverLibro, hp, hact]

theorem devolverLibro_error_order_witness :
    ((⟨[], [], [], ⟨1, 1, 1⟩, none⟩ : Biblioteca).devolverLibro 1 "T" =
      ({ ok := false, mensaje := "Préstamo no encontrado" },
        (⟨[], [], [], ⟨1, 1, 1⟩, none⟩ : Biblioteca))) ∧
    ((⟨[(1, ⟨1, "B", "A", 2000, true⟩)], [(1, ⟨1, "P"⟩)],
        [(1, ⟨1, 1, 1, "T0", some "T1"⟩)], ⟨2, 2, 2⟩, none⟩ :
        Biblioteca).devolverLibro 1 "T" =
      ({ ok := false, mensaje := "Ya devuelto" },
        (⟨[(1, ⟨1, "B", "A", 2000, true⟩)], [(1, ⟨1, "P"⟩)],
          [(1, ⟨1, 1, 1, "T0", some "T1"⟩)], ⟨2, 2, 2⟩, none⟩ : Biblioteca))) ∧
    ((⟨[], [], [(1, ⟨1, 1, 1, "T0", none⟩)], ⟨1, 1, 2⟩, none⟩ :
        Biblioteca).devolverLibro 1 "T" =
      ({ ok := false, mensaje := "Libro inexistente" },
        (⟨[], [], [(1, ⟨1, 1, 1, "T0", none⟩)], ⟨1, 1, 2⟩, none⟩ : Biblioteca))) :=
  ⟨(devolverLibro_error_order _ 1 "T").1 (by decide),
   (devolverLibro_error_order _ 1 "T").2.1 ⟨1, 1, 1, "T0", some "T1"⟩
     (by decide) (by decide),
   (devolverLibro_error_order _ 1 "T").2.2.1 ⟨1, 1, 1, "T0", none⟩
     (by decide) (by decide) (by decide)⟩

/-! ## Claim theorems: persistence of successful mutations -/

/-- C5: every mutating operation that reports success hands the storage port a
full snapshot of the post-mutation state before returning: afterwards the
stored snapshot equals the serialization of the in-memory state. -/
theorem mutating_ops_persist (b : Biblioteca) (t a nom now : String)
    (y li ui pid : Nat) :
    ((b.crearLibro t a y).2.storage = some ((b.crearLibro t a y).2.toDB)) ∧
    ((b.crearUsuario nom).2.storage = some ((b.crearUsuario nom).2.toDB)) ∧
    ((b.prestarLibro li ui now).1.ok = true →
      (b.prestarLibro li ui now).2.storage =
        some ((b.prestarLibro li ui now).2.toDB)) ∧
    ((b.devolverLibro pid now).1.ok = true →
      (b.devolverLibro pid now).2.storage =
        some ((b.devolverLibro pid now).2.toDB)) := by
  refine ⟨?_, ?_, ?_, ?_⟩
  · simp [Biblioteca.crearLibro, Biblioteca.save, Biblioteca.toDB]
  · simp [Biblioteca.crearUsuario, Biblioteca.save, Biblioteca.toDB]
  · intro hok
    rcases hli : b.libros.get li with _ | l
    · exact absurd hok (by simp [Biblioteca.prestarLibro, hli])
    · rcases hui : b.usuarios.get ui with _ | u
      · exact absurd hok (by simp [Biblioteca.prestarLibro, hli, hui])
      · by_cases hd : l.isDisponible
        · simp [Biblioteca.prestarLibro, hli, hui, hd, Biblioteca.save,
            Biblioteca.toDB]
        · simp only [Bool.not_eq_true] at hd
          exact absurd hok (by simp [Biblioteca.prestarLibro, hli, hui, hd])
  · intro hok
    rcases hp : b.prestamos.get pid with _ | p
    · exact absurd hok (by simp [Biblioteca.devolverLibro, hp])
    · by_cases hact : p.isActivo
      · rcases hl : b.libros.get p.libroId with _ | l
        · exact absurd hok (by simp [Biblioteca.devolverLibro, hp, hact, hl])
        · simp [Biblioteca.devolverLibro, hp, hact, hl, Biblioteca.save,
            Biblioteca.toDB]
      · simp only [Bool.not_eq_true] at hact
        exact absurd hok (by simp [Biblioteca.devolverLibro, hp, hact])

theorem mutating_ops_persist_witness :
    (((⟨[], [], [], ⟨1, 1, 1⟩, none⟩ : Biblioteca).crearLibro "B" "A" 2000).2.storage =
      some (((⟨[], [], [], ⟨1, 1, 1⟩, none⟩ : Biblioteca).crearLibro "B" "A" 2000).2.toDB)) ∧
    (((⟨[], [], [], ⟨1, 1, 1⟩, none⟩ : Biblioteca).crearUsuario "P").2.storage =
      some (((⟨[], [], [], ⟨1, 1, 1⟩, none⟩ : Biblioteca).crearUsuario "P").2.toDB)) ∧
    (((⟨[(1, ⟨1, "B", "A", 2000, true⟩)], [(1, ⟨1, "P"⟩)], [], ⟨2, 2, 1⟩, none⟩ :
        Biblioteca).prestarLibro 1 1 "T").2.storage =
      some (((⟨[(1, ⟨1, "B", "A", 2000, true⟩)], [(1, ⟨1, "P"⟩)], [], ⟨2, 2, 1⟩, none⟩ :
        Biblioteca).prestarLibro 1 1 "T").2.toDB)) ∧
    (((⟨[(1, ⟨1, "B", "A", 2000, false⟩)], [(1, ⟨1, "P"⟩)],
        [(1, ⟨1, 1, 1, "T0", none⟩)], ⟨2, 2, 2⟩, none⟩ :
        Biblioteca).devolverLibro 1 "T1").2.storage =
      some (((⟨[(1, ⟨1, "B", "A", 2000, false⟩)], [(1, ⟨1, "P"⟩)],
        [(1, ⟨1, 1, 1, "T0", none⟩)], ⟨2, 2, 2⟩, none⟩ :
        Biblioteca).devolverLibro 1 "T1").2.toDB)) :=
  ⟨(mutating_ops_persist _ "B" "A" "P" "T" 2000 1 1 1).1,
   (mutating_ops_persist _ "B" "A" "P" "T" 2000 1 1 1).2.1,
   (mutating_ops_persist _ "B" "A" "P" "T" 2000 1 1 1).2.2.1 (by decide),
   (mutating_ops_persist _ "B" "A" "P" "T1" 2000 1 1 1).2.2.2 (by decide)⟩

/-! ## Claim theorems: guarded internal `libro.prestar()` -/

/-- C7: once the three `prestarLibro` validations pass, the internal
`libro.prestar()` call cannot take its failure branch: it returns `true`, and
the lend operation reports success. -/
theorem prestar_interno_succeeds (b : Biblioteca) (li ui : Nat) (now : String)
    (l : Libro) (u : Usuario) (hl : b.libros.get li = some l)
    (hu : b.usuarios.get ui = some u) (hd : l.isDisponible = true) :
    (l.prestar).2 = true ∧ (b.prestarLibro li ui now).1.ok = true := by
  constructor
  · simp only [Libro.isDisponible] at hd
    simp [Libro.prestar, hd]
  · simp [Biblioteca.prestarLibro, hl, hu, hd]

theorem prestar_interno_succeeds_witness :
    ((⟨1, "B", "A", 2000, true⟩ : Libro).prestar).2 = true ∧
    ((⟨[(1, ⟨1, "B", "A", 2000, true⟩)], [(1, ⟨1, "P"⟩)], [], ⟨2, 2, 1⟩, none⟩ :
        Biblioteca).prestarLibro 1 1 "T").1.ok = true :=
  prestar_interno_succeeds _ 1 1 "T" ⟨1, "B", "A", 2000, true⟩ ⟨1, "P"⟩
    (by decide) (by decide) (by decide)

/-! ## Claim theorems: `devolverLibro` ignores `libro.devolver()`'s outcome -/

/-- C9: when the loan exists, is active, and its book exists, `devolverLibro`
reports success unconditionally and closes the loan — even when the book is
already available (an inconsistent state), where the internal
`libro.devolver()` returns `false`. -/
theorem devolver_ignora_estado_libro (b : Biblioteca) (pid : Nat)
    (now : String) (p : Prestamo) (l : Libro)
    (hp : b.prestamos.get pid = some p) (hact : p.isActivo = true)
    (hl : b.libros.get p.libroId = some l) :
    (b.devolverLibro pid now).1.ok = true ∧
    (b.devolverLibro pid now).1.mensaje = "Libro devuelto" ∧
    (b.devolverLibro pid now).2.prestamos.get pid =
      some { p with fechaDevolucion := some now } ∧
    (l.isDisponible = true → (l.devolver).2 = false) := by
  have hdev : (p.devolver now).1 = { p with fechaDevolucion := some now } := by
    simp [Prestamo.devolver, hact]
  refine ⟨?_, ?_, ?_, ?_⟩
  · simp [Biblioteca.devolverLibro, hp, hact, hl]
  · simp [Biblioteca.devolverLibro, hp, hact, hl]
  · simp [Biblioteca.devolverLibro, hp, hact, hl, Biblioteca.save, hdev,
      JsMap.get_set_self]
  · intro hd
    simp only [Libro.isDisponible] at hd
    simp [Libro.devolver, hd]

theorem devolver_ignora_estado_libro_witness :
    ((⟨[(1, ⟨1, "B", "A", 2000, true⟩)], [(1, ⟨1, "P"⟩)],
        [(1, ⟨1, 1, 1, "T0", none⟩)], ⟨2, 2, 2⟩, none⟩ :
        Biblioteca).devolverLibro 1 "T1").1.ok = true ∧
    ((⟨[(1, ⟨1, "B", "A", 2000, true⟩)], [(1, ⟨1, "P"⟩)],
        [(1, ⟨1, 1, 1, "T0", none⟩)], ⟨2, 2, 2⟩, none⟩ :
        Biblioteca).devolverLibro 1 "T1").1.mensaje = "Libro devuelto" ∧
    ((⟨[(1, ⟨1, "B", "A", 2000, true⟩)], [(1, ⟨1, "P"⟩)],
        [(1, ⟨1, 1, 1, "T0", none⟩)], ⟨2, 2, 2⟩, none⟩ :
        Biblioteca).devolverLibro 1 "T1").2.prestamos.get 1 =
      some { id := 1, libroId := 1, usuarioId := 1, fechaPrestamo := "T0",
             fechaDevolucion := some "T1" } ∧
    ((⟨1, "B", "A", 2000, true⟩ : Libro).isDisponible = true →
      ((⟨1, "B", "A", 2000, true⟩ : Libro).devolver).2 = false) :=
  devolver_ignora_estado_libro _ 1 "T1" ⟨1, 1, 1, "T0", none⟩
    ⟨1, "B", "A", 2000, true⟩ (by decide) (by decide) (by decide)

/-! ## Snapshot round-trip (save then load) -/

theorem JsMap.foldl_set_append (l : List (Nat × α)) (acc : JsMap α)
    (habs : ∀ e ∈ l, acc.get e.1 = none)
    (hnd : (l.map (·.1)).Nodup) :
    l.foldl (fun m e => m.set e.1 e.2) acc = acc ++ l := by
  induction l generalizing acc with
  | nil => simp
  | cons e es ih =>
    simp only [List.map_cons, List.nodup_cons] at hnd
    have h1 : acc.set e.1 e.2 = acc ++ [e] := by
      rw [JsMap.set_eq_append_of_get_none _ (habs e (List.mem_cons_self _ _))]
    have h2 : ∀ e' ∈ es, (acc ++ [e]).get e'.1 = none := by
      intro e' he'
      rw [JsMap.get_eq_none_iff]
      intro e'' he''
      rcases List.mem_append.1 he'' with h | h
      · exact (JsMap.get_eq_none_iff acc e'.1).1
          (habs e' (List.mem_cons_of_mem _ he')) e'' h
      · simp only [List.mem_singleton] at h
        subst h
        intro hkk
        apply hnd.1
        rw [hkk]
        exact List.mem_map_of_mem (fun x => x.1) he'
    calc (e :: es).foldl (fun m e => m.set e.1 e.2) acc
        = es.foldl (fun m e => m.set e.1 e.2) (acc ++ [e]) := by
          simp only [List.foldl_cons, h1]
      _ = (acc ++ [e]) ++ es := ih (acc ++ [e]) h2 hnd.2
      _ = acc ++ e :: es := by simp

theorem JsMap.reconstruct {α β : Type} (m : JsMap α) (toJ : α → β)
    (fromJ : β → α) (idJ : β → Nat) (idOf : α → Nat)
    (hrt : ∀ a, fromJ (toJ a) = a) (hid : ∀ a, idJ (toJ a) = idOf a)
    (hwf : m.WFkeys idOf) :
    (m.values.map toJ).foldl (fun acc j => JsMap.set acc (idJ j) (fromJ j))
      ([] : JsMap α) = m := by
  obtain ⟨hkeys, hnd⟩ := hwf
  have hstep : ∀ (acc : JsMap α), ∀ e ∈ m,
      JsMap.set acc (idJ (toJ e.2)) (fromJ (toJ e.2)) = JsMap.set acc e.1 e.2 := by
    intro acc e he
    rw [hid, hrt, ← hkeys e he]
  calc (m.values.map toJ).foldl (fun acc j => JsMap.set acc (idJ j) (fromJ j))
        ([] : JsMap α)
      = m.foldl (fun acc e => JsMap.set acc (idJ (toJ e.2)) (fromJ (toJ e.2)))
        ([] : JsMap α) := by
        simp only [JsMap.values, List.map_map, List.foldl_map]
        rfl
    _ = m.foldl (fun acc e => JsMap.set acc e.1 e.2) ([] : JsMap α) :=
        List.foldl_ext _ _ _ hstep
    _ = ([] : JsMap α) ++ m := JsMap.foldl_set_append m [] (fun e _ => rfl) hnd
    _ = m := by simp

/-- C4: saving a snapshot of any well-formed catalog state and constructing a
new `Biblioteca` from it reconstructs the very same collections (every entity
field, including `disponible` and `fechaDevolucion`) and the same counters. -/
theorem save_load_roundtrip (b : Biblioteca)
    (hl : b.libros.WFkeys Libro.id) (hu : b.usuarios.WFkeys Usuario.id)
    (hp : b.prestamos.WFkeys Prestamo.id) :
    Biblioteca.nueva (some b.toDB) = { b with storage := some b.toDB } := by
  show Biblioteca.load _ = _
  unfold Biblioteca.load
  simp only [Biblioteca.toDB]
  have h1 := JsMap.reconstruct b.libros Libro.toJSON Libro.fromJSON
    LibroJSON.id Libro.id libro_fromJSON_toJSON (fun _ => rfl) hl
  have h2 := JsMap.reconstruct b.usuarios Usuario.toJSON Usuario.fromJSON
    UsuarioJSON.id Usuario.id usuario_fromJSON_toJSON (fun _ => rfl) hu
  have h3 := JsMap.reconstruct b.prestamos Prestamo.toJSON Prestamo.fromJSON
    PrestamoJSON.id Prestamo.id prestamo_fromJSON_toJSON (fun _ => rfl) hp
  simp only [Biblioteca.toDB] at h1 h2 h3
  simp [h1, h2, h3, Biblioteca.toDB]

theorem save_load_roundtrip_witness :
    Biblioteca.nueva
        (some (⟨[(1, ⟨1, "B", "A", 2000, false⟩)], [(1, ⟨1, "P"⟩)],
          [(1, ⟨1, 1, 1, "T0", none⟩), (2, ⟨2, 1, 1, "T1", some "T2"⟩)],
          ⟨2, 2, 3⟩, none⟩ : Biblioteca).toDB) =
      { (⟨[(1, ⟨1, "B", "A", 2000, false⟩)], [(1, ⟨1, "P"⟩)],
          [(1, ⟨1, 1, 1, "T0", none⟩), (2, ⟨2, 1, 1, "T1", some "T2"⟩)],
          ⟨2, 2, 3⟩, none⟩ : Biblioteca) with
        storage := some (⟨[(1, ⟨1, "B", "A", 2000, false⟩)], [(1, ⟨1, "P"⟩)],
          [(1, ⟨1, 1, 1, "T0", none⟩), (2, ⟨2, 1, 1, "T1", some "T2"⟩)],
          ⟨2, 2, 3⟩, none⟩ : Biblioteca).toDB } :=
  save_load_roundtrip _
    (by constructor <;> decide) (by constructor <;> decide)
    (by constructor <;> decide)

/-! ## Loading a snapshot without `nextIds` -/

theorem JsMap.isSome_get_set (m : JsMap α) (k k' : Nat) (v : α)
    (h : (m.get k').isSome = true) : ((m.set k v).get k').isSome = true := by
  by_cases hk : k' = k
  · subst hk
    rw [JsMap.get_set_self]
    rfl
  · rw [JsMap.get_set_ne _ _ hk]
    exact h

theorem JsMap.isSome_get_foldl_set {α β : Type} (l : List β) (idJ : β → Nat)
    (f : β → α) (acc : JsMap α) (k : Nat)
    (h : (JsMap.get acc k).isSome = true ∨ ∃ x ∈ l, idJ x = k) :
    ((l.foldl (fun m x => JsMap.set m (idJ x) (f x)) acc).get k).isSome = true := by
  induction l generalizing acc with
  | nil =>
    rcases h with h | ⟨x, hx, _⟩
    · simpa using h
    · exact absurd hx (List.not_mem_nil x)
  | cons x xs ih =>
    simp only [List.foldl_cons]
    rcases h with h | ⟨x', hx', hk⟩
    · exact ih _ (Or.inl (JsMap.isSome_get_set _ _ _ _ h))
    · rcases List.mem_cons.1 hx' with h1 | h1
      · subst h1
        refine ih _ (Or.inl ?_)
        rw [hk, JsMap.get_set_self]
        rfl
      · exact ih _ (Or.inr ⟨x', h1, hk⟩)

/-- C10: loading a snapshot whose `nextIds` field is absent populates the
three collections but leaves all three counters at their initial value 1; a
subsequent `crearLibro` then hands out id 1 and `Map.set` overwrites a loaded
book that already carried id 1 (the map does not grow), breaking id
uniqueness. -/
theorem load_sin_nextIds (snap : DBShape) (hnid : snap.nextIds = none)
    (t a : String) (y : Nat) :
    (Biblioteca.nueva (some snap)).nextIds = ⟨1, 1, 1⟩ ∧
    (∀ lb ∈ snap.libros,
      ((Biblioteca.nueva (some snap)).libros.get lb.id).isSome = true) ∧
    (∀ us ∈ snap.usuarios,
      ((Biblioteca.nueva (some snap)).usuarios.get us.id).isSome = true) ∧
    (∀ pr ∈ snap.prestamos,
      ((Biblioteca.nueva (some snap)).prestamos.get pr.id).isSome = true) ∧
    (((Biblioteca.nueva (some snap)).crearLibro t a y).1.id = 1) ∧
    (∀ lb ∈ snap.libros, lb.id = 1 →
      ((Biblioteca.nueva (some snap)).crearLibro t a y).2.libros.size =
        (Biblioteca.nueva (some snap)).libros.size ∧
      ((Biblioteca.nueva (some snap)).crearLibro t a y).2.libros.get 1 =
        some (Libro.nuevo 1 t a y)) := by
  have hb : Biblioteca.nueva (some snap) =
      { libros := snap.libros.foldl
          (fun m lb => JsMap.set m lb.id (Libro.fromJSON lb)) ([] : JsMap Libro),
        usuarios := snap.usuarios.foldl
          (fun m us => JsMap.set m us.id (Usuario.fromJSON us)) ([] : JsMap Usuario),
        prestamos := snap.prestamos.foldl
          (fun m pr => JsMap.set m pr.id (Prestamo.fromJSON pr)) ([] : JsMap Prestamo),
        nextIds := ⟨1, 1, 1⟩,
        storage := some snap } := by
    show Biblioteca.load _ = _
    unfold Biblioteca.load
    simp [hnid]
  have hpop : ∀ lb ∈ snap.libros,
      ((Biblioteca.nueva (some snap)).libros.get lb.id).isSome = true := by
    intro lb hm
    rw [hb]
    exact JsMap.isSome_get_foldl_set snap.libros LibroJSON.id Libro.fromJSON
      ([] : JsMap Libro) lb.id (Or.inr ⟨lb, hm, rfl⟩)
  refine ⟨by rw [hb], hpop, ?_, ?_, ?_, ?_⟩
  · intro us hm
    rw [hb]
    exact JsMap.isSome_get_foldl_set snap.usuarios UsuarioJSON.id Usuario.fromJSON
      ([] : JsMap Usuario) us.id (Or.inr ⟨us, hm, rfl⟩)
  · intro pr hm
    rw [hb]
    exact JsMap.isSome_get_foldl_set snap.prestamos PrestamoJSON.id Prestamo.fromJSON
      ([] : JsMap Prestamo) pr.id (Or.inr ⟨pr, hm, rfl⟩)
  · rw [hb]
    simp [Biblioteca.crearLibro, Libro.nuevo]
  · intro lb hm h1
    have hsome := hpop lb hm
    rw [h1] at hsome
    obtain ⟨w, hw⟩ := Option.isSome_iff_exists.1 hsome
    have hnx : (Biblioteca.nueva (some snap)).nextIds.libro = 1 := by rw [hb]
    constructor
    · simp only [Biblioteca.crearLibro, Biblioteca.save, JsMap.size, hnx]
      exact JsMap.length_set_of_get_some hw
    · simp only [Biblioteca.crearLibro, Biblioteca.save, hnx]
      exact JsMap.get_set_self _ _ _

theorem load_sin_nextIds_witness :
    (Biblioteca.nueva (some (⟨[⟨1, "B", "A", 2000, true⟩], [⟨1, "P"⟩],
        [⟨1, 1, 1, "T", none⟩], none⟩ : DBShape))).nextIds = ⟨1, 1, 1⟩ ∧
    ((Biblioteca.nueva (some (⟨[⟨1, "B", "A", 2000, true⟩], [⟨1, "P"⟩],
        [⟨1, 1, 1, "T", none⟩], none⟩ : DBShape))).libros.get 1).isSome = true ∧
    ((Biblioteca.nueva (some (⟨[⟨1, "B", "A", 2000, true⟩], [⟨1, "P"⟩],
        [⟨1, 1, 1, "T", none⟩], none⟩ : DBShape))).crearLibro "N" "M" 2020).1.id = 1 ∧
    ((Biblioteca.nueva (some (⟨[⟨1, "B", "A", 2000, true⟩], [⟨1, "P"⟩],
        [⟨1, 1, 1, "T", none⟩], none⟩ : DBShape))).crearLibro "N" "M" 2020).2.libros.size =
      (Biblioteca.nueva (some (⟨[⟨1, "B", "A", 2000, true⟩], [⟨1, "P"⟩],
        [⟨1, 1, 1, "T", none⟩], none⟩ : DBShape))).libros.size ∧
    ((Biblioteca.nueva (some (⟨[⟨1, "B", "A", 2000, true⟩], [⟨1, "P"⟩],
        [⟨1, 1, 1, "T", none⟩], none⟩ : DBShape))).crearLibro "N" "M" 2020).2.libros.get 1 =
      some (Libro.nuevo 1 "N" "M" 2020) :=
  ⟨(load_sin_nextIds _ rfl "N" "M" 2020).1,
   (load_sin_nextIds _ rfl "N" "M" 2020).2.1 ⟨1, "B", "A", 2000, true⟩ (by decide),
   (load_sin_nextIds _ rfl "N" "M" 2020).2.2.2.2.1,
   ((load_sin_nextIds _ rfl "N" "M" 2020).2.2.2.2.2 ⟨1, "B", "A", 2000, true⟩
     (by decide) rfl).1,
   ((load_sin_nextIds _ rfl "N" "M" 2020).2.2.2.2.2 ⟨1, "B", "A", 2000, true⟩
     (by decide) rfl).2⟩

/-! ## The no-double-lend invariant -/

theorem JsMap.isSome_get_iff_mem_keys (m : JsMap α) (k : Nat) :
    (m.get k).isSome = true ↔ k ∈ m.map (·.1) := by
  rw [JsMap.isSome_get_iff]
  exact (List.mem_map).symm

theorem countActive_append (pres : JsMap Prestamo) (e : Nat × Prestamo) (bid : Nat) :
    countActive (pres ++ [e]) bid =
      countActive pres bid +
        (if e.2.isActivo && e.2.libroId == bid then 1 else 0) := by
  simp only [countActive, JsMap.values, List.map_append, List.filter_append,
    List.length_append, List.map_cons, List.map_nil]
  by_cases h : e.2.isActivo && e.2.libroId == bid <;> simp [h]

theorem countActive_set {pres : JsMap Prestamo} {k : Nat} {p q : Prestamo}
    (hget : pres.get k = some p) (bid : Nat) :
    countActive (pres.set k q) bid +
      (if p.isActivo && p.libroId == bid then 1 else 0) =
    countActive pres bid + (if q.isActivo && q.libroId == bid then 1 else 0) := by
  exact JsMap.filter_length_set (fun r => r.isActivo && r.libroId == bid) hget

theorem Biblioteca.inv_of_parts (li : JsMap Libro) (us : JsMap Usuario)
    (pr : JsMap Prestamo) (ni : NextIds) (st : Option DBShape)
    (h1 : li.WFkeys Libro.id) (h2 : ∀ e ∈ li, e.1 < ni.libro)
    (h3 : pr.WFkeys Prestamo.id) (h4 : ∀ e ∈ pr, e.1 < ni.prestamo)
    (h5 : ∀ p ∈ pr.values, p.isActivo = true → (li.get p.libroId).isSome = true)
    (h6 : ∀ l ∈ li.values, countActive pr l.id ≤ 1 ∧
      (l.disponible = false ↔ countActive pr l.id = 1)) :
    (Biblioteca.mk li us pr ni st).Inv :=
  ⟨h1, h2, h3, h4, h5, h6⟩

theorem Biblioteca.inv_save {b : Biblioteca} (h : b.Inv) : (b.save).Inv := by
  obtain ⟨h1, h2, h3, h4, h5, h6⟩ := h
  exact Biblioteca.inv_of_parts _ _ _ _ _ h1 h2 h3 h4 h5 h6

theorem Biblioteca.inv_nueva_none : (Biblioteca.nueva none).Inv := by
  refine ⟨⟨?_, ?_⟩, ?_, ⟨?_, ?_⟩, ?_, ?_, ?_⟩ <;> simp [Biblioteca.nueva,
    Biblioteca.load, JsMap.values]

theorem Biblioteca.inv_crearLibro {b : Biblioteca} (hinv : b.Inv)
    (t a : String) (y : Nat) : ((b.crearLibro t a y).2).Inv := by
  obtain ⟨⟨hlk, hlnd⟩, hlb, hpwf, hpb, href, hcnt⟩ := hinv
  have hgetid : b.libros.get b.nextIds.libro = none := by
    rw [JsMap.get_eq_none_iff]
    intro e he
    exact Nat.ne_of_lt (hlb e he)
  have hset : JsMap.set b.libros b.nextIds.libro (Libro.nuevo b.nextIds.libro t a y) =
      b.libros ++ [(b.nextIds.libro, Libro.nuevo b.nextIds.libro t a y)] :=
    JsMap.set_eq_append_of_get_none _ hgetid
  have hstate : (b.crearLibro t a y).2 =
      Biblioteca.save
        { b with
          nextIds := { b.nextIds with libro := b.nextIds.libro + 1 },
          libros := JsMap.set b.libros b.nextIds.libro
            (Libro.nuevo b.nextIds.libro t a y) } := by
    simp [Biblioteca.crearLibro]
  rw [hstate]
  apply Biblioteca.inv_save
  refine Biblioteca.inv_of_parts _ _ _ _ _ ⟨?_, ?_⟩ ?_ hpwf hpb ?_ ?_
  · intro e he
    rw [hset] at he
    rcases List.mem_append.1 he with h | h
    · exact hlk e h
    · simp only [List.mem_singleton] at h
      subst h
      rfl
  · rw [hset]
    simp only [List.map_append, List.map_cons, List.map_nil]
    rw [List.nodup_append]
    refine ⟨hlnd, List.nodup_singleton _, ?_⟩
    intro x hx hx'
    simp only [List.mem_singleton] at hx'
    subst hx'
    obtain ⟨e, he, heq⟩ := List.mem_map.1 hx
    exact absurd heq (Nat.ne_of_lt (hlb e he))
  · intro e he
    rw [hset] at he
    rcases List.mem_append.1 he with h | h
    · exact Nat.lt_succ_of_lt (hlb e h)
    · simp only [List.mem_singleton] at h
      subst h
      exact Nat.lt_succ_self _
  · intro p hp hact
    exact JsMap.isSome_get_set _ _ _ _ (href p hp hact)
  · intro l' hl'
    rw [hset] at hl'
    simp only [JsMap.values, List.map_append, List.map_cons, List.map_nil,
      List.mem_append, List.mem_singleton] at hl'
    rcases hl' with h | h
    · exact hcnt l' h
    · subst h
      have hz : countActive b.prestamos (Libro.nuevo b.nextIds.libro t a y).id = 0 := by
        rw [show countActive b.prestamos (Libro.nuevo b.nextIds.libro t a y).id =
            (b.prestamos.values.filter (fun r =>
              r.isActivo && r.libroId == (Libro.nuevo b.nextIds.libro t a y).id)).length
          from rfl]
        rw [List.length_eq_zero, List.filter_eq_nil_iff]
        intro p hp hf
        simp only [Bool.and_eq_true, beq_iff_eq] at hf
        have hsome := href p hp hf.1
        rw [JsMap.isSome_get_iff] at hsome
        obtain ⟨e', he', hk⟩ := hsome
        have hlt := hlb e' he'
        rw [hk, hf.2] at hlt
        simp [Libro.nuevo] at hlt
      refine ⟨by rw [hz]; exact Nat.zero_le 1, ?_⟩
      rw [hz]
      simp [Libro.nuevo]

theorem Biblioteca.inv_crearUsuario {b : Biblioteca} (hinv : b.Inv)
    (n : String) : ((b.crearUsuario n).2).Inv := by
  obtain ⟨h1, h2, h3, h4, h5, h6⟩ := hinv
  have hstate : (b.crearUsuario n).2 =
      Biblioteca.save
        { b with
          nextIds := { b.nextIds with usuario := b.nextIds.usuario + 1 },
          usuarios := JsMap.set b.usuarios b.nextIds.usuario
            ⟨b.nextIds.usuario, n⟩ } := by
    simp [Biblioteca.crearUsuario]
  rw [hstate]
  exact Biblioteca.inv_save (Biblioteca.inv_of_parts _ _ _ _ _ h1 h2 h3 h4 h5 h6)

theorem JsMap.mem_values_iff {m : JsMap α} {v : α} :
    v ∈ m.values ↔ ∃ e ∈ m, e.2 = v := by
  simp only [JsMap.values]
  exact List.mem_map

theorem JsMap.mem_values_of_mem {m : JsMap α} {e : Nat × α} (h : e ∈ m) :
    e.2 ∈ m.values :=
  JsMap.mem_values_iff.2 ⟨e, h, rfl⟩

theorem Biblioteca.inv_prestarLibro {b : Biblioteca} (hinv : b.Inv)
    (li ui : Nat) (now : String) : ((b.prestarLibro li ui now).2).Inv := by
  rcases hli : b.libros.get li with _ | l
  · have hid : (b.prestarLibro li ui now).2 = b := by
      simp [Biblioteca.prestarLibro, hli]
    rw [hid]
    exact hinv
  rcases hui : b.usuarios.get ui with _ | u
  · have hid : (b.prestarLibro li ui now).2 = b := by
      simp [Biblioteca.prestarLibro, hli, hui]
    rw [hid]
    exact hinv
  by_cases hd : l.isDisponible
  case neg =>
    have hid : (b.prestarLibro li ui now).2 = b := by
      simp only [Bool.not_eq_true] at hd
      simp [Biblioteca.prestarLibro, hli, hui, hd]
    rw [hid]
    exact hinv
  case pos =>
  obtain ⟨⟨hlk, hlnd⟩, hlb, ⟨hpk, hpnd⟩, hpb, href, hcnt⟩ := hinv
  have hld : l.disponible = true := by simpa [Libro.isDisponible] using hd
  have hprest : (l.prestar).1 = { l with disponible := false } := by
    simp [Libro.prestar, hld]
  have hmemli : (li, l) ∈ b.libros := JsMap.mem_of_get_eq_some hli
  have hidl : li = l.id := hlk _ hmemli
  subst hidl
  have hlv : l ∈ b.libros.values := JsMap.mem_values_of_mem hmemli
  have hlibound : l.id < b.nextIds.libro := hlb _ hmemli
  have hgetN : b.prestamos.get b.nextIds.prestamo = none := by
    rw [JsMap.get_eq_none_iff]
    intro e he
    exact Nat.ne_of_lt (hpb e he)
  have hpre : JsMap.set b.prestamos b.nextIds.prestamo
      ⟨b.nextIds.prestamo, l.id, ui, now, none⟩ =
      b.prestamos ++
        [(b.nextIds.prestamo, ⟨b.nextIds.prestamo, l.id, ui, now, none⟩)] :=
    JsMap.set_eq_append_of_get_none _ hgetN
  have h0 : countActive b.prestamos l.id = 0 := by
    have h1 := (hcnt l hlv).1
    have hne1 : countActive b.prestamos l.id ≠ 1 := by
      intro hc
      have hdf := (hcnt l hlv).2.mpr hc
      rw [hld] at hdf
      exact absurd hdf (by decide)
    omega
  have hca : ∀ bid, countActive (JsMap.set b.prestamos b.nextIds.prestamo
      ⟨b.nextIds.prestamo, l.id, ui, now, none⟩) bid =
      countActive b.prestamos bid + (if l.id == bid then 1 else 0) := by
    intro bid
    rw [hpre, countActive_append]
    simp [Prestamo.isActivo, jsTruthy]
  have hstate : (b.prestarLibro l.id ui now).2 =
      Biblioteca.save
        { b with
          nextIds := { b.nextIds with prestamo := b.nextIds.prestamo + 1 },
          libros := JsMap.set b.libros l.id { l with disponible := false },
          prestamos := JsMap.set b.prestamos b.nextIds.prestamo
            ⟨b.nextIds.prestamo, l.id, ui, now, none⟩ } := by
    simp [Biblioteca.prestarLibro, hli, hui, hd, hprest]
  rw [hstate]
  apply Biblioteca.inv_save
  refine Biblioteca.inv_of_parts _ _ _ _ _ ⟨?_, ?_⟩ ?_ ⟨?_, ?_⟩ ?_ ?_ ?_
  · intro e he
    rcases (JsMap.mem_set_iff hlnd hli e).1 he with h | ⟨hmem, _⟩
    · subst h
      rfl
    · exact hlk e hmem
  · rw [JsMap.keys_set_of_get_some hli]
    exact hlnd
  · intro e he
    rcases (JsMap.mem_set_iff hlnd hli e).1 he with h | ⟨hmem, _⟩
    · subst h
      exact hlibound
    · exact hlb e hmem
  · intro e he
    rw [hpre] at he
    rcases List.mem_append.1 he with h | h
    · exact hpk e h
    · simp only [List.mem_singleton] at h
      subst h
      rfl
  · rw [hpre]
    simp only [List.map_append, List.map_cons, List.map_nil]
    rw [List.nodup_append]
    refine ⟨hpnd, List.nodup_singleton _, ?_⟩
    intro x hx hx'
    simp only [List.mem_singleton] at hx'
    subst hx'
    obtain ⟨e, he, heq⟩ := List.mem_map.1 hx
    exact absurd heq (Nat.ne_of_lt (hpb e he))
  · intro e he
    rw [hpre] at he
    rcases List.mem_append.1 he with h | h
    · exact Nat.lt_succ_of_lt (hpb e h)
    · simp only [List.mem_singleton] at h
      subst h
      exact Nat.lt_succ_self _
  · intro q hq hqact
    rw [JsMap.mem_values_iff] at hq
    obtain ⟨e, he, rfl⟩ := hq
    rw [hpre] at he
    rcases List.mem_append.1 he with h | h
    · exact JsMap.isSome_get_set _ _ _ _
        (href e.2 (JsMap.mem_values_of_mem h) hqact)
    · simp only [List.mem_singleton] at h
      subst h
      simp [JsMap.get_set_self]
  · intro l'' hl''
    rw [JsMap.mem_values_iff] at hl''
    obtain ⟨e, he, rfl⟩ := hl''
    rcases (JsMap.mem_set_iff hlnd hli e).1 he with h | ⟨hmem, hne⟩
    · subst h
      have hbeq : (l.id == ({ l with disponible := false } : Libro).id) = true := by
        simp
      constructor
      · rw [show ({ l with disponible := false } : Libro).id = l.id from rfl,
          hca l.id, h0]
        simp
      · rw [show ({ l with disponible := false } : Libro).id = l.id from rfl,
          hca l.id, h0]
        simp
    · have heid : e.1 = e.2.id := hlk e hmem
      have hbeq : (l.id == e.2.id) = false := by
        rw [beq_eq_false_iff_ne]
        intro hEq
        apply hne
        rw [heid]
        exact hEq.symm
      rw [hca e.2.id, hbeq]
      simpa using hcnt e.2 (JsMap.mem_values_of_mem hmem)

theorem Biblioteca.inv_devolverLibro {b : Biblioteca} (hinv : b.Inv)
    (pid : Nat) {now : String} (hnow : now.isEmpty = false) :
    ((b.devolverLibro pid now).2).Inv := by
  rcases hp : b.prestamos.get pid with _ | p
  · have hid : (b.devolverLibro pid now).2 = b := by
      simp [Biblioteca.devolverLibro, hp]
    rw [hid]
    exact hinv
  by_cases hact : p.isActivo
  case neg =>
    have hid : (b.devolverLibro pid now).2 = b := by
      simp only [Bool.not_eq_true] at hact
      simp [Biblioteca.devolverLibro, hp, hact]
    rw [hid]
    exact hinv
  case pos =>
  rcases hl : b.libros.get p.libroId with _ | l
  · have hid : (b.devolverLibro pid now).2 = b := by
      simp [Biblioteca.devolverLibro, hp, hact, hl]
    rw [hid]
    exact hinv
  obtain ⟨⟨hlk, hlnd⟩, hlb, ⟨hpk, hpnd⟩, hpb, href, hcnt⟩ := hinv
  have hmemp : (pid, p) ∈ b.prestamos := JsMap.mem_of_get_eq_some hp
  have hidp : pid = p.id := hpk _ hmemp
  have hmeml : (p.libroId, l) ∈ b.libros := JsMap.mem_of_get_eq_some hl
  have hidl : p.libroId = l.id := hlk _ hmeml
  have hpv : p ∈ b.prestamos.values := JsMap.mem_values_of_mem hmemp
  have hlv : l ∈ b.libros.values := JsMap.mem_values_of_mem hmeml
  have hone : countActive b.prestamos l.id = 1 := by
    have hpf : p ∈ b.prestamos.values.filter
        (fun r => r.isActivo && r.libroId == l.id) :=
      List.mem_filter.2 ⟨hpv, by simp [hact, hidl]⟩
    have hge : 0 < countActive b.prestamos l.id := List.length_pos_of_mem hpf
    have hle := (hcnt l hlv).1
    omega
  have hldisp : l.disponible = false := (hcnt l hlv).2.mpr hone
  have hdev : (l.devolver).1 = { l with disponible := true } := by
    simp [Libro.devolver, hldisp]
  have hpdev : (p.devolver now).1 = { p with fechaDevolucion := some now } := by
    simp [Prestamo.devolver, hact]
  have hinact : ({ p with fechaDevolucion := some now } : Prestamo).isActivo = false := by
    simp [Prestamo.isActivo, jsTruthy, hnow]
  have hca : ∀ bid, countActive (JsMap.set b.prestamos pid
        { p with fechaDevolucion := some now }) bid +
      (if p.libroId == bid then 1 else 0) = countActive b.prestamos bid := by
    intro bid
    have h := countActive_set (q := { p with fechaDevolucion := some now }) hp bid
    simpa [hact, hinact] using h
  have hstate : (b.devolverLibro pid now).2 =
      Biblioteca.save
        { b with
          prestamos := JsMap.set b.prestamos pid
            { p with fechaDevolucion := some now },
          libros := JsMap.set b.libros p.libroId
            { l with disponible := true } } := by
    simp [Biblioteca.devolverLibro, hp, hact, hl, hdev, hpdev]
  rw [hstate]
  apply Biblioteca.inv_save
  refine Biblioteca.inv_of_parts _ _ _ _ _ ⟨?_, ?_⟩ ?_ ⟨?_, ?_⟩ ?_ ?_ ?_
  · intro e he
    rcases (JsMap.mem_set_iff hlnd hl e).1 he with h | ⟨hmem, _⟩
    · subst h
      exact hidl
    · exact hlk e hmem
  · rw [JsMap.keys_set_of_get_some hl]
    exact hlnd
  · intro e he
    rcases (JsMap.mem_set_iff hlnd hl e).1 he with h | ⟨hmem, _⟩
    · subst h
      exact hlb (p.libroId, l) hmeml
    · exact hlb e hmem
  · intro e he
    rcases (JsMap.mem_set_iff hpnd hp e).1 he with h | ⟨hmem, _⟩
    · subst h
      exact hidp
    · exact hpk e hmem
  · rw [JsMap.keys_set_of_get_some hp]
    exact hpnd
  · intro e he
    rcases (JsMap.mem_set_iff hpnd hp e).1 he with h | ⟨hmem, _⟩
    · subst h
      exact hpb (pid, p) hmemp
    · exact hpb e hmem
  · intro q hq hqact
    rw [JsMap.mem_values_iff] at hq
    obtain ⟨e, he, rfl⟩ := hq
    rcases (JsMap.mem_set_iff hpnd hp e).1 he with h | ⟨hmem, _⟩
    · subst h
      exact absurd hqact (by rw [hinact]; exact Bool.false_ne_true)
    · exact JsMap.isSome_get_set _ _ _ _
        (href e.2 (JsMap.mem_values_of_mem hmem) hqact)
  · intro l'' hl''
    rw [JsMap.mem_values_iff] at hl''
    obtain ⟨e, he, rfl⟩ := hl''
    rcases (JsMap.mem_set_iff hlnd hl e).1 he with h | ⟨hmem, hne⟩
    · subst h
      have hz : countActive (JsMap.set b.prestamos pid
          { p with fechaDevolucion := some now }) l.id = 0 := by
        have h := hca l.id
        rw [hone] at h
        have hbeq : (p.libroId == l.id) = true := by simp [hidl]
        rw [hbeq] at h
        simp only [if_true] at h
        omega
      constructor
      · rw [show ({ l with disponible := true } : Libro).id = l.id from rfl, hz]
        exact Nat.zero_le 1
      · show ({ l with disponible := true } : Libro).disponible = false ↔
          countActive (JsMap.set b.prestamos pid
            { p with fechaDevolucion := some now })
            ({ l with disponible := true } : Libro).id = 1
        rw [show ({ l with disponible := true } : Libro).id = l.id from rfl, hz]
        simp
    · have heid : e.1 = e.2.id := hlk e hmem
      have hbeq : (p.libroId == e.2.id) = false := by
        rw [beq_eq_false_iff_ne]
        intro hEq
        apply hne
        rw [heid]
        exact hEq.symm
      have h := hca e.2.id
      rw [hbeq] at h
      simp only [Bool.false_eq_true, if_false, Nat.add_zero] at h
      rw [h]
      exact hcnt e.2 (JsMap.mem_values_of_mem hmem)

theorem Biblioteca.reachable_inv {b : Biblioteca} (h : b.Reachable) : b.Inv := by
  induction h with
  | vacia => exact Biblioteca.inv_nueva_none
  | crearLibro t a y _ ih => exact Biblioteca.inv_crearLibro ih t a y
  | crearUsuario n _ ih => exact Biblioteca.inv_crearUsuario ih n
  | prestarLibro li ui now _ _ ih => exact Biblioteca.inv_prestarLibro ih li ui now
  | devolverLibro pid now _ hnow ih => exact Biblioteca.inv_devolverLibro ih pid hnow

/-- C1: in every state reachable from the empty catalog by
`crearLibro`/`crearUsuario`/`prestarLibro`/`devolverLibro`, no book is
double-lent and no loan double-returned: every catalogued book is referenced
by at most one active loan, and its `disponible` flag is `false` exactly when
one active loan references its id. -/
theorem reachable_sin_doble_prestamo {b : Biblioteca} (h : b.Reachable)
    (l : Libro) (hl : l ∈ b.libros.values) :
    countActive b.prestamos l.id ≤ 1 ∧
    (l.disponible = false ↔ countActive b.prestamos l.id = 1) :=
  (Biblioteca.reachable_inv h).2.2.2.2.2 l hl

theorem reachable_sin_doble_prestamo_witness :
    countActive ((((Biblioteca.nueva none).crearLibro "B" "A"
        2000).2.crearUsuario "P").2.prestarLibro 1 1 "T1").2.prestamos
      (⟨1, "B", "A", 2000, false⟩ : Libro).id ≤ 1 ∧
    ((⟨1, "B", "A", 2000, false⟩ : Libro).disponible = false ↔
      countActive ((((Biblioteca.nueva none).crearLibro "B" "A"
          2000).2.crearUsuario "P").2.prestarLibro 1 1 "T1").2.prestamos
        (⟨1, "B", "A", 2000, false⟩ : Libro).id = 1) :=
  reachable_sin_doble_prestamo
    (Biblioteca.Reachable.prestarLibro 1 1 "T1"
      (Biblioteca.Reachable.crearUsuario "P"
        (Biblioteca.Reachable.crearLibro "B" "A" 2000
          Biblioteca.Reachable.vacia))
      (by decide))
    ⟨1, "B", "A", 2000, false⟩ (by decide)
